import Mathlib

/-!
Verification of the DisplayPort AUX-channel transaction engine and register
decoders of `drivers/gpu/drm/drm_dp_helper.c`.

The external raw-transfer collaborator (`drm_dp_aux.transfer`) is modelled as a
function from a global call counter and the message to an outcome (bytes
transferred or negative errno, plus the reply status byte and, for reads, the
bytes it deposits in the caller's buffer).  Machine integers are modelled as
`Nat`/`Int`; the values involved are small and no overflow occurs on the
modelled paths.  Logging and the monotonic diagnostic counters
(`i2c_nack_count`/`i2c_defer_count`) are omitted: they do not affect control
flow.  Loops are translated with an explicit fuel argument whose value is
chosen so that the fuel never runs out before the C loop's own exit condition
fires.
-/

/-! ### Errno values (linux/errno.h), negated at use sites as in the C code -/

/-- errno EIO. -/
def eIo : Int := 5

/-- errno EBUSY. -/
def eBusy : Int := 16

/-- errno EINVAL. -/
def eInval : Int := 22

/-- errno EPROTO. -/
def eProto : Int := 71

/-- errno ETIMEDOUT. -/
def eTimedOut : Int := 110

/-- errno EREMOTEIO. -/
def eRemoteIo : Int := 121

/-! ### DPCD register constants.

Modelled from the spec: the numeric values of the `DP_*` register offsets,
masks and reply codes come from the DisplayPort DPCD header
(`include/drm/drm_dp_helper.h`), which is not among the provided sources; the
spec states that register layouts are bit-exact per the external hardware
specification, so the standard values are used. -/

def DP_AUX_I2C_WRITE : Nat := 0x0
def DP_AUX_I2C_READ : Nat := 0x1
def DP_AUX_I2C_WRITE_STATUS_UPDATE : Nat := 0x2
def DP_AUX_I2C_MOT : Nat := 0x4
def DP_AUX_NATIVE_WRITE : Nat := 0x8
def DP_AUX_NATIVE_READ : Nat := 0x9

def DP_AUX_NATIVE_REPLY_ACK : Nat := 0x0
def DP_AUX_NATIVE_REPLY_NACK : Nat := 0x1
def DP_AUX_NATIVE_REPLY_DEFER : Nat := 0x2
def DP_AUX_NATIVE_REPLY_MASK : Nat := 0x3

def DP_AUX_I2C_REPLY_ACK : Nat := 0x0
def DP_AUX_I2C_REPLY_NACK : Nat := 0x4
def DP_AUX_I2C_REPLY_DEFER : Nat := 0x8
def DP_AUX_I2C_REPLY_MASK : Nat := 0xc

def DP_AUX_MAX_PAYLOAD_BYTES : Nat := 16

def DP_DPCD_REV : Nat := 0x000
def DP_LANE0_1_STATUS : Nat := 0x202
def DP_LANE_CR_DONE : Nat := 0x1

def DP_DOWNSTREAMPORT_PRESENT : Nat := 0x005
def DP_DETAILED_CAP_INFO_AVAILABLE : Nat := 0x10
def DP_DS_PORT_TYPE_MASK : Nat := 0x07
def DP_DS_PORT_TYPE_VGA : Nat := 1
def DP_DS_PORT_TYPE_DVI : Nat := 2
def DP_DS_PORT_TYPE_HDMI : Nat := 3
def DP_DS_PORT_TYPE_DP_DUALMODE : Nat := 5

def DP_DSC_SUPPORT : Nat := 0x060
def DP_DSC_LINE_BUF_BIT_DEPTH : Nat := 0x065
def DP_DSC_LINE_BUF_BIT_DEPTH_MASK : Nat := 0xf

def DP_PSR_SETUP_TIME_MASK : Nat := 0x0e
def DP_PSR_SETUP_TIME_SHIFT : Nat := 1

/-- Source `#define AUX_RETRY_INTERVAL 500` (microseconds). -/
def AUX_RETRY_INTERVAL : Nat := 500

/-! ### Data model -/

/-- Source `struct drm_dp_aux_msg`: address, request byte, buffer (modelled as
the offset of `msg->buffer` inside the caller's buffer) and size.  The `reply`
field, written by the transfer collaborator, lives in `Outcome` instead. -/
structure AuxMsg where
  address : Nat
  request : Nat
  bufOff : Nat
  size : Nat
  deriving DecidableEq, Inhabited, Repr

/-- Result of one call of the external raw-transfer collaborator
(`aux->transfer`): the returned byte count or negative errno, the reply status
byte it stored in `msg->reply`, and the bytes it deposited at the start of
`msg->buffer` (empty for writes and failed transfers). -/
structure Outcome where
  ret : Int
  reply : Nat
  data : List Nat
  deriving DecidableEq, Inhabited, Repr

/-- The external raw-transfer collaborator, indexed by a global call counter
(its private state) and the message it is handed. -/
def Collab : Type := Nat → AuxMsg → Outcome

/-! ### Transaction Engine: `drm_dp_dpcd_access` (drm_dp_helper.c:212-267) -/

/-- Classification of one transfer outcome by the body of the retry loop of
`drm_dp_dpcd_access` (lines 240-249): on a non-negative return, a native ACK
with the full byte count keeps the count, a native ACK with a partial count
becomes `-EPROTO`, any other native reply becomes `-EIO`; a negative return is
kept as is. -/
def classifyNative (size : Nat) (o : Outcome) : Int :=
  if 0 ≤ o.ret then
    if o.reply &&& DP_AUX_NATIVE_REPLY_MASK = DP_AUX_NATIVE_REPLY_ACK then
      if o.ret = (size : Int) then o.ret else -eProto
    else -eIo
  else o.ret

/-- The exit condition of the retry loop of `drm_dp_dpcd_access` (the
`goto unlock` path): non-negative return, native ACK, full byte count. -/
def nativeSuccess (size : Nat) (o : Outcome) : Prop :=
  0 ≤ o.ret ∧ o.reply &&& DP_AUX_NATIVE_REPLY_MASK = DP_AUX_NATIVE_REPLY_ACK ∧
    o.ret = (size : Int)

instance (size : Nat) (o : Outcome) : Decidable (nativeSuccess size o) := by
  unfold nativeSuccess; infer_instance

/-- One iteration of the native retry loop, as observed from outside: whether
the jittered `usleep_range(AUX_RETRY_INTERVAL, AUX_RETRY_INTERVAL + 100)` ran
at the top of the iteration, the collaborator's raw return, the reply byte,
and the classified result `ret` at the end of the iteration. -/
structure DpcdAttempt where
  waited : Bool
  raw : Int
  reply : Nat
  classified : Int
  deriving DecidableEq, Inhabited, Repr

/-- Result of `drm_dp_dpcd_access`: the returned value, the caller's buffer
after the call, the collaborator call counter after the call, and the list of
attempts the loop performed. -/
structure AccessResult where
  ret : Int
  buf : List Nat
  n : Nat
  attempts : List DpcdAttempt
  deriving DecidableEq, Inhabited, Repr

/-- The retry loop of `drm_dp_dpcd_access` (lines 233-258).  `fuel` counts the
remaining iterations (32 at entry), `ret` and `err` are the loop-carried C
variables (both 0 at entry), `buf` the caller's buffer contents.  When the
fuel runs out the loop has performed its 32 iterations and the function
returns `err`, the first error encountered (lines 260-262). -/
def dpcdLoop (tr : Collab) (msg : AuxMsg) :
    Nat → Nat → Int → Int → List Nat → AccessResult
  | 0, n, _ret, err, buf => ⟨err, buf, n, []⟩
  | fuel+1, n, ret, err, buf =>
    let o := tr n msg
    let ret2 := classifyNative msg.size o
    let att : DpcdAttempt :=
      ⟨decide (ret ≠ 0 ∧ ret ≠ -eTimedOut), o.ret, o.reply, ret2⟩
    let buf2 := o.data ++ buf.drop o.data.length
    if nativeSuccess msg.size o then
      ⟨ret2, buf2, n+1, [att]⟩
    else
      let R := dpcdLoop tr msg fuel (n+1) ret2 (if err = 0 then ret2 else err) buf2
      ⟨R.ret, R.buf, R.n, att :: R.attempts⟩

/-- Source `drm_dp_dpcd_access` (lines 212-267): build the fixed message and
run the 32-attempt retry loop.  `n` is the collaborator call counter at entry;
`buf` is the caller's buffer. -/
def drm_dp_dpcd_access (tr : Collab) (request offset size : Nat)
    (buf : List Nat) (n : Nat) : AccessResult :=
  dpcdLoop tr ⟨offset, request, 0, size⟩ 32 n 0 0 buf

/-- Source `drm_dp_dpcd_read` (lines 283-316), direct and remote paths.  On a
direct (non-remote) channel a one-byte throwaway read of `DP_DPCD_REV` into
the caller's own buffer precedes the real read; its failure (`ret != 1`)
aborts the whole read.  The remote path delegates to the external
multiplexed-transport collaborator `mstRead`. -/
def drm_dp_dpcd_read (tr : Collab) (mstRead : Nat → Nat → List Nat → Int × List Nat)
    (isRemote : Bool) (offset size : Nat) (buf : List Nat) (n : Nat) :
    Int × List Nat × Nat :=
  if isRemote then
    let r := mstRead offset size buf
    (r.1, r.2, n)
  else
    let a1 := drm_dp_dpcd_access tr DP_AUX_NATIVE_READ DP_DPCD_REV 1 buf n
    if a1.ret ≠ 1 then (a1.ret, a1.buf, a1.n)
    else
      let a2 := drm_dp_dpcd_access tr DP_AUX_NATIVE_READ offset size a1.buf a1.n
      (a2.ret, a2.buf, a2.n)

/-! ### I2C-over-AUX Adapter (drm_dp_helper.c:600-941) -/

def AUX_PRECHARGE_LEN : Nat := 10
def AUX_SYNC_LEN : Nat := 16 + 4
def AUX_STOP_LEN : Nat := 4
def AUX_CMD_LEN : Nat := 4
def AUX_ADDRESS_LEN : Nat := 20
def AUX_REPLY_PAD_LEN : Nat := 4
def AUX_LENGTH_LEN : Nat := 8

def I2C_START_LEN : Nat := 1
def I2C_STOP_LEN : Nat := 1
def I2C_ADDR_LEN : Nat := 9
def I2C_DATA_LEN : Nat := 9

/-- C macro `DIV_ROUND_UP(n, d) = (n + d - 1) / d` on non-negative ints. -/
def DIV_ROUND_UP (n d : Nat) : Nat := (n + d - 1) / d

/-- Source `drm_dp_i2c_msg_write_status_update` (lines 612-623): an I2C write
(with or without MOT) is switched to WRITE_STATUS_UPDATE, keeping the MOT bit;
other requests are left alone.  `0xfb` is the byte complement of
`DP_AUX_I2C_MOT`. -/
def drm_dp_i2c_msg_write_status_update (msg : AuxMsg) : AuxMsg :=
  if msg.request &&& 0xfb = DP_AUX_I2C_WRITE then
    { msg with request := (msg.request &&& DP_AUX_I2C_MOT) ||| DP_AUX_I2C_WRITE_STATUS_UPDATE }
  else msg

/-- Source `drm_dp_aux_req_duration` (lines 637-646). -/
def drm_dp_aux_req_duration (msg : AuxMsg) : Nat :=
  let len := AUX_PRECHARGE_LEN + AUX_SYNC_LEN + AUX_STOP_LEN +
    AUX_CMD_LEN + AUX_ADDRESS_LEN + AUX_LENGTH_LEN
  if msg.request &&& DP_AUX_I2C_READ = 0 then len + msg.size * 8 else len

/-- Source `drm_dp_aux_reply_duration` (lines 648-661). -/
def drm_dp_aux_reply_duration (msg : AuxMsg) : Nat :=
  let len := AUX_PRECHARGE_LEN + AUX_SYNC_LEN + AUX_STOP_LEN +
    AUX_CMD_LEN + AUX_REPLY_PAD_LEN
  if msg.request &&& DP_AUX_I2C_READ ≠ 0 then len + msg.size * 8 else len

/-- Source `drm_dp_i2c_msg_duration` (lines 676-683): length of the i2c
transfer in usec at the given bus speed (kHz). -/
def drm_dp_i2c_msg_duration (msg : AuxMsg) (i2c_speed_khz : Nat) : Nat :=
  DIV_ROUND_UP ((I2C_START_LEN + I2C_ADDR_LEN + msg.size * I2C_DATA_LEN +
    I2C_STOP_LEN) * 1000) i2c_speed_khz

/-- Source `drm_dp_i2c_retry_count` (lines 690-698). -/
def drm_dp_i2c_retry_count (msg : AuxMsg) (i2c_speed_khz : Nat) : Nat :=
  DIV_ROUND_UP (drm_dp_i2c_msg_duration msg i2c_speed_khz)
    (drm_dp_aux_req_duration msg + drm_dp_aux_reply_duration msg + AUX_RETRY_INTERVAL)

/-- Source: `int max_retries = max(7, drm_dp_i2c_retry_count(msg, speed))`
(line 728). -/
def i2cMaxRetries (msg : AuxMsg) (i2c_speed_khz : Nat) : Nat :=
  max 7 (drm_dp_i2c_retry_count msg i2c_speed_khz)

/-- Result of `drm_dp_i2c_do_msg`: returned value, the message as left behind
(its request may have been switched to WRITE_STATUS_UPDATE), the collaborator
call counter, and the list of messages handed to the collaborator. -/
structure DoMsgResult where
  ret : Int
  msg : AuxMsg
  n : Nat
  msgs : List AuxMsg
  deriving DecidableEq, Inhabited, Repr

/-- The retry loop of `drm_dp_i2c_do_msg` (lines 730-823).  The C loop runs
while `retry < max_retries + defer_i2c` with `defer_i2c ≤ 7`, so
`maxRetries + 7` iterations suffice; `fuel` is kept equal to
`maxRetries + 7 - retry`, hence never reaches 0 while the guard holds, and the
fuel-exhausted branch coincides with the loop's own exhaustion result
`-EREMOTEIO` (line 823). -/
def i2cDoMsgLoop (tr : Collab) (maxRetries : Nat) :
    Nat → Nat → Nat → AuxMsg → Nat → List AuxMsg → DoMsgResult
  | 0, _retry, _deferI2c, msg, n, acc => ⟨-eRemoteIo, msg, n, acc⟩
  | fuel+1, retry, deferI2c, msg, n, acc =>
    if retry < maxRetries + deferI2c then
      let o := tr n msg
      let acc2 := acc ++ [msg]
      if o.ret < 0 then
        if o.ret = -eBusy then
          i2cDoMsgLoop tr maxRetries fuel (retry+1) deferI2c msg (n+1) acc2
        else ⟨o.ret, msg, n+1, acc2⟩
      else
        let natR := o.reply &&& DP_AUX_NATIVE_REPLY_MASK
        if natR = DP_AUX_NATIVE_REPLY_ACK then
          let i2cR := o.reply &&& DP_AUX_I2C_REPLY_MASK
          if i2cR = DP_AUX_I2C_REPLY_ACK then
            if o.ret = (msg.size : Int) then ⟨o.ret, msg, n+1, acc2⟩
            else ⟨o.ret, drm_dp_i2c_msg_write_status_update msg, n+1, acc2⟩
          else if i2cR = DP_AUX_I2C_REPLY_NACK then ⟨-eRemoteIo, msg, n+1, acc2⟩
          else if i2cR = DP_AUX_I2C_REPLY_DEFER then
            let deferI2c2 := if deferI2c < 7 then deferI2c + 1 else deferI2c
            i2cDoMsgLoop tr maxRetries fuel (retry+1) deferI2c2
              (drm_dp_i2c_msg_write_status_update msg) (n+1) acc2
          else ⟨-eRemoteIo, msg, n+1, acc2⟩
        else if natR = DP_AUX_NATIVE_REPLY_NACK then ⟨-eRemoteIo, msg, n+1, acc2⟩
        else if natR = DP_AUX_NATIVE_REPLY_DEFER then
          i2cDoMsgLoop tr maxRetries fuel (retry+1) deferI2c msg (n+1) acc2
        else ⟨-eRemoteIo, msg, n+1, acc2⟩
    else ⟨-eRemoteIo, msg, n, acc⟩

/-- Source `drm_dp_i2c_do_msg` (lines 717-824). -/
def drm_dp_i2c_do_msg (tr : Collab) (msg : AuxMsg) (n : Nat)
    (i2c_speed_khz : Nat) : DoMsgResult :=
  i2cDoMsgLoop tr (i2cMaxRetries msg i2c_speed_khz)
    (i2cMaxRetries msg i2c_speed_khz + 7) 0 0 msg n []

/-- Result of `drm_dp_i2c_drain_msg` / of the chunk loop of
`drm_dp_i2c_xfer`. -/
structure DrainResult where
  ret : Int
  n : Nat
  msgs : List AuxMsg
  deriving DecidableEq, Inhabited, Repr

/-- The while loop of `drm_dp_i2c_drain_msg` (lines 845-858).  `ret` is the
loop-carried recommended transfer size (initially `orig_msg->size`).  The
per-call transfer shrinks the remaining `msg.size` by the bytes drained; each
successful `do_msg` returns at least one byte, so `orig_msg->size` iterations
of fuel suffice and the fuel-exhausted branch coincides with the `while`
exit. -/
def drainLoop (tr : Collab) (i2c_speed_khz : Nat) :
    Nat → AuxMsg → Int → Nat → List AuxMsg → DrainResult
  | 0, _msg, ret, n, acc => ⟨ret, n, acc⟩
  | fuel+1, msg, ret, n, acc =>
    if 0 < msg.size then
      let r := drm_dp_i2c_do_msg tr msg n i2c_speed_khz
      if r.ret ≤ 0 then
        ⟨if r.ret = 0 then -eProto else r.ret, r.n, acc ++ r.msgs⟩
      else
        let err := r.ret.toNat
        let ret2 := if r.ret < (msg.size : Int) ∧ r.ret < ret then r.ret else ret
        drainLoop tr i2c_speed_khz fuel
          { r.msg with size := msg.size - err, bufOff := msg.bufOff + err }
          ret2 r.n (acc ++ r.msgs)
    else ⟨ret, n, acc⟩

/-- Source `drm_dp_i2c_drain_msg` (lines 840-861).  The loop works on a copy
of the original message; `do_msg` may switch the copy's request to
WRITE_STATUS_UPDATE, which subsequent iterations keep. -/
def drm_dp_i2c_drain_msg (tr : Collab) (i2c_speed_khz : Nat) (orig : AuxMsg)
    (n : Nat) : DrainResult :=
  drainLoop tr i2c_speed_khz orig.size orig (orig.size : Int) n []

/-- The per-message chunk loop of `drm_dp_i2c_xfer` (lines 909-925): the
message of length `len` is cut into chunks of at most `transferSize` bytes
(initially the configured maximum payload), each drained in turn, and the
chunk size shrinks to whatever the last drain recommends.  The request is
rebuilt from `baseReq` for every chunk (the `drm_dp_i2c_msg_set_request`
reset after each drain).  Each iteration advances `j` by at least one byte,
so `len` iterations of fuel suffice. -/
def i2cXferChunkLoop (tr : Collab) (i2c_speed_khz addr baseReq len : Nat) :
    Nat → Nat → Nat → Int → Nat → List AuxMsg → DrainResult
  | 0, _j, _transferSize, err, n, acc => ⟨err, n, acc⟩
  | fuel+1, j, transferSize, err, n, acc =>
    if j < len then
      let msg : AuxMsg := ⟨addr, baseReq, j, min transferSize (len - j)⟩
      let r := drm_dp_i2c_drain_msg tr i2c_speed_khz msg n
      if r.ret < 0 then ⟨r.ret, r.n, acc ++ r.msgs⟩
      else i2cXferChunkLoop tr i2c_speed_khz addr baseReq len fuel
        (j + msg.size) r.ret.toNat r.ret r.n (acc ++ r.msgs)
    else ⟨err, n, acc⟩

/-! ### Register Decoder -/

/-- Source `dp_link_status` (lines 49-52): the 6-byte link-status array is
indexed relative to `DP_LANE0_1_STATUS`. -/
def dp_link_status (link_status : Nat → Nat) (r : Nat) : Nat :=
  link_status (r - DP_LANE0_1_STATUS)

/-- Source `dp_get_lane_status` (lines 54-61): the 4-bit status nibble of a
lane, two lanes per byte. -/
def dp_get_lane_status (link_status : Nat → Nat) (lane : Nat) : Nat :=
  let i := DP_LANE0_1_STATUS + (lane >>> 1)
  let s := (lane &&& 1) * 4
  (dp_link_status link_status i >>> s) &&& 0xf

/-- Source `drm_dp_clock_recovery_ok` (lines 83-96): true iff every active
lane's CR_DONE bit is set (the C loop returns false at the first unset
bit). -/
def drm_dp_clock_recovery_ok (link_status : Nat → Nat) (lane_count : Nat) : Bool :=
  (List.range lane_count).all fun lane =>
    dp_get_lane_status link_status lane &&& DP_LANE_CR_DONE != 0

/-- Source `drm_dp_link_rate_to_bw_code` (lines 170-175): integer division by
27000, truncated to the u8 return type. -/
def drm_dp_link_rate_to_bw_code (link_rate : Nat) : Nat :=
  link_rate / 27000 % 256

/-- Source `drm_dp_bw_code_to_link_rate` (lines 177-182). -/
def drm_dp_bw_code_to_link_rate (link_bw : Nat) : Nat :=
  link_bw * 27000

/-- Source `drm_dp_downstream_max_clock` (lines 435-455). -/
def drm_dp_downstream_max_clock (dpcd port_cap : Nat → Nat) : Nat :=
  let t := port_cap 0 &&& DP_DS_PORT_TYPE_MASK
  if dpcd DP_DOWNSTREAMPORT_PRESENT &&& DP_DETAILED_CAP_INFO_AVAILABLE = 0 then 0
  else if t = DP_DS_PORT_TYPE_VGA then port_cap 1 * 8 * 1000
  else if t = DP_DS_PORT_TYPE_DVI ∨ t = DP_DS_PORT_TYPE_HDMI ∨
      t = DP_DS_PORT_TYPE_DP_DUALMODE then port_cap 1 * 2500
  else 0

/-- Source `drm_dp_dsc_sink_line_buf_depth` (lines 1461-1487): switch on the
masked line-buffer bit-depth field, 0 for the unlisted (reserved) codes. -/
def drm_dp_dsc_sink_line_buf_depth (dsc_dpcd : Nat → Nat) : Nat :=
  match dsc_dpcd (DP_DSC_LINE_BUF_BIT_DEPTH - DP_DSC_SUPPORT) &&&
      DP_DSC_LINE_BUF_BIT_DEPTH_MASK with
  | 0 => 9
  | 1 => 10
  | 2 => 11
  | 3 => 12
  | 4 => 13
  | 5 => 14
  | 6 => 15
  | 7 => 16
  | 8 => 8
  | _ => 0

/-- Source: the `psr_setup_time_us` table of `drm_dp_psr_setup_time` (lines
1129-1137), indexed by `DP_PSR_SETUP_TIME_x >> DP_PSR_SETUP_TIME_SHIFT`. -/
def psr_setup_time_us : List Nat := [330, 275, 220, 165, 110, 55, 0]

/-- Source `drm_dp_psr_setup_time` (lines 1127-1145): index the setup-time
table by the masked, shifted 3-bit field; an index past the table (the
reserved value 7) yields `-EINVAL`. -/
def drm_dp_psr_setup_time (psr_cap : Nat → Nat) : Int :=
  let i := (psr_cap 1 &&& DP_PSR_SETUP_TIME_MASK) >>> DP_PSR_SETUP_TIME_SHIFT
  if psr_setup_time_us.length ≤ i then -eInval
  else (psr_setup_time_us.getD i 0 : Nat)

/-! ### Scenario collaborators used by the concrete theorems -/

/-- Collaborator replying I2C DEFER (native ACK + I2C DEFER) on the first 7
calls and a full native/I2C ACK afterwards. -/
def c2deferTr : Collab := fun n msg =>
  if n < 7 then ⟨0, DP_AUX_I2C_REPLY_DEFER, []⟩ else ⟨(msg.size : Int), 0, []⟩

/-- Collaborator acknowledging every chunk in full. -/
def c3trFull : Collab := fun _ msg => ⟨(msg.size : Int), 0, []⟩

/-- Collaborator whose first reply is short (10 bytes), full ACK afterwards. -/
def c3trShort : Collab := fun n msg =>
  if n = 0 then ⟨10, 0, []⟩ else ⟨(msg.size : Int), 0, []⟩

/-- Collaborator failing every transfer with the hard (non-timeout) transport
error `-EIO`. -/
def c4tr : Collab := fun _ _ => ⟨-eIo, 0, []⟩

/-- Collaborator replying NACK on the first `N` calls and a full ACK
afterwards. -/
def nackThenAck (N : Nat) : Collab := fun n msg =>
  if n < N then ⟨0, DP_AUX_NATIVE_REPLY_NACK, []⟩ else ⟨(msg.size : Int), 0, []⟩

/-- Collaborator failing every transfer with `-ETIMEDOUT`. -/
def c7tr : Collab := fun _ _ => ⟨-eTimedOut, 0, []⟩

/-- Remote-path collaborator stub (unused on the direct path). -/
def c10mst : Nat → Nat → List Nat → Int × List Nat := fun _ _ b => (0, b)

/-- Collaborator whose first call (the throwaway `DP_DPCD_REV` read) succeeds
and deposits the byte `0x12`, while every later call is NACKed. -/
def c10trFail : Collab := fun n _ => if n = 0 then ⟨1, 0, [0x12]⟩ else ⟨0, 1, []⟩

/-- Collaborator whose first call deposits `0x12` (throwaway read) and whose
later calls succeed with the register data `0x34 0x56`. -/
def c10trOk : Collab := fun n _ => if n = 0 then ⟨1, 0, [0x12]⟩ else ⟨2, 0, [0x34, 0x56]⟩

/-! ### Theorems -/

/-- Claim C9: for every legal (hence every 8-bit) bandwidth code, converting
the code to a link rate and back is the identity, and the conversion scales by
exactly the factor 27000. -/
theorem bw_code_round_trip (bw : Nat) (h : bw < 256) :
    drm_dp_link_rate_to_bw_code (drm_dp_bw_code_to_link_rate bw) = bw ∧
    drm_dp_bw_code_to_link_rate bw = bw * 27000 := by
  refine ⟨?_, rfl⟩
  unfold drm_dp_link_rate_to_bw_code drm_dp_bw_code_to_link_rate
  rw [Nat.mul_div_cancel bw (by norm_num : (0:Nat) < 27000)]
  exact Nat.mod_eq_of_lt h

/-- Witness for C9 at the legal bandwidth code 0x14 (5.4 Gbps). -/
theorem bw_code_round_trip_app :
    drm_dp_link_rate_to_bw_code (drm_dp_bw_code_to_link_rate 20) = 20 ∧
    drm_dp_bw_code_to_link_rate 20 = 20 * 27000 :=
  bw_code_round_trip 20 (by decide)

/-- Claim C5, corrected: the downstream and DSC capability decoders never
fail — they return the sentinel 0 when the detailed-capability-info flag is
absent or the selecting field holds a reserved/unrecognized code — and the
PSR setup-time decoder returns a non-negative table value for setup-time
field values 0-6; for the reserved field value 7, however, it returns the
error `-EINVAL`, not a sentinel. -/
theorem capability_decoders_sentinel (dpcd port_cap dsc psr : Nat → Nat) :
    (dpcd DP_DOWNSTREAMPORT_PRESENT &&& DP_DETAILED_CAP_INFO_AVAILABLE = 0 →
      drm_dp_downstream_max_clock dpcd port_cap = 0) ∧
    ((port_cap 0 &&& DP_DS_PORT_TYPE_MASK ≠ DP_DS_PORT_TYPE_VGA ∧
      port_cap 0 &&& DP_DS_PORT_TYPE_MASK ≠ DP_DS_PORT_TYPE_DVI ∧
      port_cap 0 &&& DP_DS_PORT_TYPE_MASK ≠ DP_DS_PORT_TYPE_HDMI ∧
      port_cap 0 &&& DP_DS_PORT_TYPE_MASK ≠ DP_DS_PORT_TYPE_DP_DUALMODE) →
      drm_dp_downstream_max_clock dpcd port_cap = 0) ∧
    (9 ≤ dsc (DP_DSC_LINE_BUF_BIT_DEPTH - DP_DSC_SUPPORT) &&&
        DP_DSC_LINE_BUF_BIT_DEPTH_MASK →
      drm_dp_dsc_sink_line_buf_depth dsc = 0) ∧
    ((psr 1 &&& DP_PSR_SETUP_TIME_MASK) >>> DP_PSR_SETUP_TIME_SHIFT < 7 →
      0 ≤ drm_dp_psr_setup_time psr) ∧
    ((psr 1 &&& DP_PSR_SETUP_TIME_MASK) >>> DP_PSR_SETUP_TIME_SHIFT = 7 →
      drm_dp_psr_setup_time psr = -eInval) := by
  refine ⟨?_, ?_, ?_, ?_, ?_⟩
  · intro h
    unfold drm_dp_downstream_max_clock
    rw [if_pos h]
  · intro h
    simp only [drm_dp_downstream_max_clock]
    split_ifs with h1 h2 h3
    · rfl
    · exact absurd h2 h.1
    · rcases h3 with h3 | h3 | h3
      · exact absurd h3 h.2.1
      · exact absurd h3 h.2.2.1
      · exact absurd h3 h.2.2.2
    · rfl
  · intro h
    have hle : dsc (DP_DSC_LINE_BUF_BIT_DEPTH - DP_DSC_SUPPORT) &&&
        DP_DSC_LINE_BUF_BIT_DEPTH_MASK ≤ 15 := Nat.and_le_right
    unfold drm_dp_dsc_sink_line_buf_depth
    revert h hle
    generalize dsc (DP_DSC_LINE_BUF_BIT_DEPTH - DP_DSC_SUPPORT) &&&
        DP_DSC_LINE_BUF_BIT_DEPTH_MASK = f
    intro h hle
    interval_cases f <;> rfl
  · intro h
    unfold drm_dp_psr_setup_time
    rw [if_neg (by simp only [psr_setup_time_us, List.length_cons, List.length_nil]; omega)]
    exact Int.natCast_nonneg _
  · intro h
    unfold drm_dp_psr_setup_time
    rw [h, if_pos (by simp [psr_setup_time_us])]

/-- Counterexample to claim C5 as stated: for the reserved 3-bit setup-time
field value 7 (byte `0x0e` at offset 1 of the PSR capability block) the PSR
setup-time decoder returns the negative error `-EINVAL = -22`, not a
sentinel.  (`eInval = 22` and the claim's sentinel would be a non-negative
value.) -/
theorem psr_setup_time_errors_on_reserved :
    ((fun _ => 0x0e : Nat → Nat) 1 &&& DP_PSR_SETUP_TIME_MASK) >>>
        DP_PSR_SETUP_TIME_SHIFT = 7 ∧
    drm_dp_psr_setup_time (fun _ => 0x0e) = -eInval ∧
    drm_dp_psr_setup_time (fun _ => 0x0e) < 0 := by
  refine ⟨by decide, by decide, by decide⟩

/-- Witness for C5: the sentinel behavior at concrete inputs (detailed-cap
flag absent, setup-time field 0). -/
theorem capability_decoders_sentinel_app :
    drm_dp_downstream_max_clock (fun _ => 0) (fun _ => 0) = 0 ∧
    0 ≤ drm_dp_psr_setup_time (fun _ => 0) := by
  refine ⟨(capability_decoders_sentinel (fun _ => 0) (fun _ => 0) (fun _ => 0)
    (fun _ => 0)).1 (by decide),
    (capability_decoders_sentinel (fun _ => 0) (fun _ => 0) (fun _ => 0)
    (fun _ => 0)).2.2.2.1 (by decide)⟩

/-- Per-lane reading of the CR_DONE test performed by
`drm_dp_clock_recovery_ok`: the bit it tests in the lane's 4-bit status
nibble is bit `4 * (lane % 2)` of byte `lane / 2` of the raw link-status
array. -/
theorem lane_cr_bit (ls : Nat → Nat) (lane : Nat) :
    (dp_get_lane_status ls lane &&& DP_LANE_CR_DONE != 0) = true ↔
      (ls (lane / 2)).testBit (4 * (lane % 2)) = true := by
  unfold dp_get_lane_status dp_link_status
  simp only [DP_LANE0_1_STATUS, DP_LANE_CR_DONE, Nat.add_sub_cancel_left]
  have h2 : lane >>> 1 = lane / 2 := by
    rw [Nat.shiftRight_eq_div_pow]
  have h3 : lane &&& 1 = lane % 2 := Nat.and_one_is_mod lane
  rw [h2, h3, Nat.and_assoc, show (0xf &&& 0x1 : Nat) = 1 from rfl,
    Nat.and_one_is_mod, Nat.testBit_to_div_mod, Nat.shiftRight_eq_div_pow,
    Nat.mul_comm (lane % 2) 4]
  simp only [bne_iff_ne, ne_eq, decide_eq_true_eq]
  omega

/-- Claim C8: for every lane count in {1, 2, 4} and every link-status byte
array, `drm_dp_clock_recovery_ok` returns true iff every lane with index
below the lane count has its clock-recovery-done bit (bit `4 * (lane % 2)`
of byte `lane / 2`) set; it returns false as soon as any such bit is
unset. -/
theorem clock_recovery_ok_iff (ls : Nat → Nat) (c : Nat)
    (_hc : c = 1 ∨ c = 2 ∨ c = 4) :
    drm_dp_clock_recovery_ok ls c = true ↔
      ∀ lane, lane < c → (ls (lane / 2)).testBit (4 * (lane % 2)) = true := by
  unfold drm_dp_clock_recovery_ok
  rw [List.all_eq_true]
  constructor
  · intro h lane hl
    exact (lane_cr_bit ls lane).mp (h lane (List.mem_range.mpr hl))
  · intro h lane hl
    exact (lane_cr_bit ls lane).mpr (h lane (List.mem_range.mp hl))

/-- Witness for C8: with both lanes' CR_DONE bits set in byte 0 (`0x11`),
clock recovery is reported done for lane count 2. -/
theorem clock_recovery_ok_iff_app :
    drm_dp_clock_recovery_ok (fun _ => 0x11) 2 = true :=
  (clock_recovery_ok_iff (fun _ => 0x11) 2 (Or.inr (Or.inl rfl))).mpr (by decide)

/-- Claim C3: cutting a 33-byte I2C message with maximum payload 16 issues
exactly 3 chunked transfers of sizes 16, 16, 1 when every chunk is
acknowledged in full; when the first chunk's reply is short (10 of 16
bytes), every transfer issued afterwards has size at most 10 (the drain of
the short chunk continues with the 6 outstanding bytes and later chunks
shrink to the recommended 10). -/
theorem i2c_chunking_trace :
    ((i2cXferChunkLoop c3trFull 10 0x50 (DP_AUX_I2C_READ ||| DP_AUX_I2C_MOT)
        33 33 0 DP_AUX_MAX_PAYLOAD_BYTES 0 0 []).msgs.map AuxMsg.size =
      [16, 16, 1]) ∧
    ((i2cXferChunkLoop c3trShort 10 0x50 (DP_AUX_I2C_READ ||| DP_AUX_I2C_MOT)
        33 33 0 DP_AUX_MAX_PAYLOAD_BYTES 0 0 []).msgs.map AuxMsg.size =
      [16, 6, 10, 7]) ∧
    (((i2cXferChunkLoop c3trShort 10 0x50 (DP_AUX_I2C_READ ||| DP_AUX_I2C_MOT)
        33 33 0 DP_AUX_MAX_PAYLOAD_BYTES 0 0 []).msgs.drop 1).all
      (fun m => m.size ≤ 10) = true) := by
  refine ⟨by decide, by decide, by decide⟩

/-- Claim C10: on a direct channel `drm_dp_dpcd_read` performs the one-byte
throwaway read at `DP_DPCD_REV` into the caller's own buffer before the real
read.  With `c10trFail` the throwaway read deposits `0x12` in the first byte
and the real read then fails (`-EIO`, different from the requested size 2),
yet the caller's buffer `[0xAA, 0xBB]` comes back as `[0x12, 0xBB]`: its
first byte was overwritten although the read failed.  With `c10trOk` the
read succeeds and the buffer holds the requested register data
`[0x34, 0x56]`, the throwaway byte having been overwritten in turn. -/
theorem dpcd_read_throwaway_buffer_effect :
    ((drm_dp_dpcd_read c10trFail c10mst false 0x100 2 [0xAA, 0xBB] 0).1 =
      -eIo) ∧
    ((drm_dp_dpcd_read c10trFail c10mst false 0x100 2 [0xAA, 0xBB] 0).1 < 0) ∧
    ((drm_dp_dpcd_read c10trFail c10mst false 0x100 2 [0xAA, 0xBB] 0).2.1 =
      [0x12, 0xBB]) ∧
    ((drm_dp_dpcd_read c10trOk c10mst false 0x100 2 [0xAA, 0xBB] 0).1 = 2) ∧
    ((drm_dp_dpcd_read c10trOk c10mst false 0x100 2 [0xAA, 0xBB] 0).2.1 =
      [0x34, 0x56]) := by
  refine ⟨by decide, by decide, by decide, by decide, by decide⟩

/-- A successful attempt is classified as the full requested byte count. -/
theorem classifyNative_of_success {size : Nat} {o : Outcome}
    (h : nativeSuccess size o) : classifyNative size o = (size : Int) := by
  obtain ⟨h1, h2, h3⟩ := h
  unfold classifyNative
  rw [if_pos h1, if_pos h2, if_pos h3, h3]

/-- A non-successful attempt is classified as a strictly negative error. -/
theorem classifyNative_neg_of_not_success {size : Nat} {o : Outcome}
    (h : ¬ nativeSuccess size o) : classifyNative size o < 0 := by
  unfold nativeSuccess at h
  unfold classifyNative
  split_ifs with h1 h2 h3
  · exact absurd ⟨h1, h2, h3⟩ h
  · norm_num [eProto]
  · norm_num [eIo]
  · omega

/-- Once `err` holds a (negative) first error, a run of the native retry
loop that never succeeds returns exactly that first error. -/
theorem dpcdLoop_ret_of_err {tr : Collab} {msg : AuxMsg} :
    ∀ fuel n (ret err : Int) (buf : List Nat), err < 0 →
    (∀ j, j < fuel → ¬ nativeSuccess msg.size (tr (n + j) msg)) →
    (dpcdLoop tr msg fuel n ret err buf).ret = err := by
  intro fuel
  induction fuel with
  | zero => intro n ret err buf _ _; rfl
  | succ fuel ih =>
    intro n ret err buf herr hns
    have h0 : ¬ nativeSuccess msg.size (tr (n + 0) msg) := hns 0 (Nat.succ_pos _)
    rw [Nat.add_zero] at h0
    simp only [dpcdLoop]
    rw [if_neg h0]
    have herr2 : (if err = 0 then classifyNative msg.size (tr n msg) else err) = err :=
      if_neg (by omega)
    rw [herr2]
    exact ih (n+1) _ err _ herr fun j hj => by
      have := hns (j+1) (by omega)
      rwa [show n + (j+1) = n + 1 + j by omega] at this

/-- A run of the native retry loop that starts with `err = 0` and never
succeeds returns the classification of its very first attempt: the first
error is preserved. -/
theorem dpcdLoop_ret_first_error {tr : Collab} {msg : AuxMsg} :
    ∀ fuel n (ret : Int) (buf : List Nat), 0 < fuel →
    (∀ j, j < fuel → ¬ nativeSuccess msg.size (tr (n + j) msg)) →
    (dpcdLoop tr msg fuel n ret 0 buf).ret = classifyNative msg.size (tr n msg) := by
  intro fuel n ret buf hf hns
  obtain ⟨fuel2, rfl⟩ : ∃ f, fuel = f + 1 := ⟨fuel - 1, by omega⟩
  have h0 : ¬ nativeSuccess msg.size (tr (n + 0) msg) := hns 0 (by omega)
  rw [Nat.add_zero] at h0
  simp only [dpcdLoop]
  rw [if_neg h0]
  exact dpcdLoop_ret_of_err fuel2 (n+1) _ _ _
    (classifyNative_neg_of_not_success h0) fun j hj => by
      have := hns (j+1) (by omega)
      rwa [show n + (j+1) = n + 1 + j by omega] at this

/-- A run of the native retry loop with a successful attempt inside its fuel
window returns the full requested byte count. -/
theorem dpcdLoop_ret_of_success {tr : Collab} {msg : AuxMsg} :
    ∀ fuel n (ret err : Int) (buf : List Nat),
    (∃ j, j < fuel ∧ nativeSuccess msg.size (tr (n + j) msg)) →
    (dpcdLoop tr msg fuel n ret err buf).ret = (msg.size : Int) := by
  intro fuel
  induction fuel with
  | zero => rintro n ret err buf ⟨j, hj, -⟩; omega
  | succ fuel ih =>
    rintro n ret err buf ⟨j, hj, hs⟩
    by_cases h0 : nativeSuccess msg.size (tr n msg)
    · simp only [dpcdLoop]
      rw [if_pos h0]
      exact classifyNative_of_success h0
    · simp only [dpcdLoop]
      rw [if_neg h0]
      apply ih
      have hj0 : j ≠ 0 := by
        rintro rfl
        rw [Nat.add_zero] at hs
        exact h0 hs
      exact ⟨j - 1, by omega, by rwa [show n + 1 + (j-1) = n + j by omega]⟩

/-- Claim C1: `dpcdAccess` succeeds exactly when some attempt among the
first 32 is a native ACK with the full requested byte count; when all 32
attempts fail it returns the error derived from the *first* failed attempt
(a strictly negative value), not the last one. -/
theorem dpcd_access_retry_semantics (tr : Collab) (request offset size : Nat)
    (buf : List Nat) (n0 : Nat) :
    (0 ≤ (drm_dp_dpcd_access tr request offset size buf n0).ret ↔
      ∃ j, j < 32 ∧ nativeSuccess size (tr (n0 + j) ⟨offset, request, 0, size⟩)) ∧
    ((∀ j, j < 32 → ¬ nativeSuccess size (tr (n0 + j) ⟨offset, request, 0, size⟩)) →
      (drm_dp_dpcd_access tr request offset size buf n0).ret =
        classifyNative size (tr n0 ⟨offset, request, 0, size⟩) ∧
      (drm_dp_dpcd_access tr request offset size buf n0).ret < 0) := by
  have hmain : (∀ j, j < 32 → ¬ nativeSuccess size (tr (n0 + j) ⟨offset, request, 0, size⟩)) →
      (drm_dp_dpcd_access tr request offset size buf n0).ret =
        classifyNative size (tr n0 ⟨offset, request, 0, size⟩) ∧
      (drm_dp_dpcd_access tr request offset size buf n0).ret < 0 := by
    intro hns
    have h1 : (drm_dp_dpcd_access tr request offset size buf n0).ret =
        classifyNative size (tr n0 ⟨offset, request, 0, size⟩) :=
      dpcdLoop_ret_first_error 32 n0 0 buf (by norm_num) hns
    have h0 : ¬ nativeSuccess size (tr (n0 + 0) ⟨offset, request, 0, size⟩) :=
      hns 0 (by norm_num)
    rw [Nat.add_zero] at h0
    exact ⟨h1, h1 ▸ classifyNative_neg_of_not_success h0⟩
  refine ⟨⟨?_, ?_⟩, hmain⟩
  · intro hpos
    by_contra hno
    push_neg at hno
    exact absurd hpos (by have := (hmain fun j hj => hno j hj).2; omega)
  · intro hex
    have := dpcdLoop_ret_of_success 32 n0 0 0 buf hex
    unfold drm_dp_dpcd_access
    rw [this]
    exact Int.natCast_nonneg _

/-- Witness for C1: a collaborator that NACKs all 32 attempts makes
`dpcdAccess` fail with the first classified error, `-EIO`. -/
theorem dpcd_access_retry_semantics_app :
    (drm_dp_dpcd_access (nackThenAck 32) DP_AUX_NATIVE_READ 0x202 6
        [0, 0, 0, 0, 0, 0] 0).ret =
      classifyNative 6 (nackThenAck 32 0 ⟨0x202, DP_AUX_NATIVE_READ, 0, 6⟩) ∧
    (drm_dp_dpcd_access (nackThenAck 32) DP_AUX_NATIVE_READ 0x202 6
        [0, 0, 0, 0, 0, 0] 0).ret < 0 :=
  (dpcd_access_retry_semantics (nackThenAck 32) DP_AUX_NATIVE_READ 0x202 6
    [0, 0, 0, 0, 0, 0] 0).2 (by decide)

/-- Head of the attempt trace of a fueled run of the native retry loop: the
first attempt records whether the incoming `ret` triggered the retry wait,
and its fields reflect the first collaborator call. -/
theorem dpcdLoop_attempts_head (tr : Collab) (msg : AuxMsg)
    (fuel n : Nat) (ret err : Int) (buf : List Nat) (h : 0 < fuel) :
    (dpcdLoop tr msg fuel n ret err buf).attempts ≠ [] ∧
    ((dpcdLoop tr msg fuel n ret err buf).attempts.getD 0 default).waited
      = decide (ret ≠ 0 ∧ ret ≠ -eTimedOut) ∧
    ((dpcdLoop tr msg fuel n ret err buf).attempts.getD 0 default).classified
      = classifyNative msg.size (tr n msg) ∧
    ((dpcdLoop tr msg fuel n ret err buf).attempts.getD 0 default).raw
      = (tr n msg).ret := by
  obtain ⟨f, rfl⟩ : ∃ f, fuel = f + 1 := ⟨fuel - 1, by omega⟩
  simp only [dpcdLoop]
  by_cases h0 : nativeSuccess msg.size (tr n msg)
  · rw [if_pos h0]
    exact ⟨List.cons_ne_nil _ _, rfl, rfl, rfl⟩
  · rw [if_neg h0]
    exact ⟨List.cons_ne_nil _ _, rfl, rfl, rfl⟩

/-- Consecutive attempts of the native retry loop: every non-final attempt
is classified as a strictly negative error, and the wait before the next
attempt runs iff that classified error is nonzero and not `-ETIMEDOUT`. -/
theorem dpcdLoop_attempts_consec {tr : Collab} {msg : AuxMsg} :
    ∀ fuel n (ret err : Int) (buf : List Nat) k,
    k + 1 < (dpcdLoop tr msg fuel n ret err buf).attempts.length →
    (((dpcdLoop tr msg fuel n ret err buf).attempts.getD (k+1) default).waited
      = decide
        (((dpcdLoop tr msg fuel n ret err buf).attempts.getD k default).classified ≠ 0 ∧
         ((dpcdLoop tr msg fuel n ret err buf).attempts.getD k default).classified ≠ -eTimedOut)) ∧
    ((dpcdLoop tr msg fuel n ret err buf).attempts.getD k default).classified < 0 := by
  intro fuel
  induction fuel with
  | zero =>
    intro n ret err buf k h
    simp [dpcdLoop] at h
  | succ fuel ih =>
    intro n ret err buf k h
    by_cases h0 : nativeSuccess msg.size (tr n msg)
    · exfalso
      have hatt : (dpcdLoop tr msg (fuel+1) n ret err buf).attempts =
          [⟨decide (ret ≠ 0 ∧ ret ≠ -eTimedOut), (tr n msg).ret, (tr n msg).reply,
            classifyNative msg.size (tr n msg)⟩] := by
        simp only [dpcdLoop]
        rw [if_pos h0]
      rw [hatt] at h
      simp at h
    · have hatt : (dpcdLoop tr msg (fuel+1) n ret err buf).attempts =
          (⟨decide (ret ≠ 0 ∧ ret ≠ -eTimedOut), (tr n msg).ret, (tr n msg).reply,
            classifyNative msg.size (tr n msg)⟩ : DpcdAttempt) ::
          (dpcdLoop tr msg fuel (n+1) (classifyNative msg.size (tr n msg))
            (if err = 0 then classifyNative msg.size (tr n msg) else err)
            ((tr n msg).data ++ buf.drop (tr n msg).data.length)).attempts := by
        simp only [dpcdLoop]
        rw [if_neg h0]
      rw [hatt] at h ⊢
      cases k with
      | zero =>
        have hlen : 0 < fuel := by
          by_contra hf
          have hz : fuel = 0 := by omega
          subst hz
          simp [dpcdLoop] at h
        have hh := dpcdLoop_attempts_head tr msg fuel (n+1)
          (classifyNative msg.size (tr n msg))
          (if err = 0 then classifyNative msg.size (tr n msg) else err)
          ((tr n msg).data ++ buf.drop (tr n msg).data.length) hlen
        constructor
        · simp only [List.getD_cons_succ, List.getD_cons_zero]
          exact hh.2.1
        · simp only [List.getD_cons_zero]
          exact classifyNative_neg_of_not_success h0
      | succ j =>
        have hlen : j + 1 < (dpcdLoop tr msg fuel (n+1)
            (classifyNative msg.size (tr n msg))
            (if err = 0 then classifyNative msg.size (tr n msg) else err)
            ((tr n msg).data ++ buf.drop (tr n msg).data.length)).attempts.length := by
          simp only [List.length_cons] at h
          omega
        have := ih (n+1) (classifyNative msg.size (tr n msg))
          (if err = 0 then classifyNative msg.size (tr n msg) else err)
          ((tr n msg).data ++ buf.drop (tr n msg).data.length) j hlen
        simpa only [List.getD_cons_succ] using this

/-- Claim C4, corrected: in the native retry loop of `dpcdAccess` the
between-attempts wait is the jittered interval
`[AUX_RETRY_INTERVAL, AUX_RETRY_INTERVAL + 100]` = 500-600 us, no wait
precedes the first attempt, and for every sequence of collaborator results
the wait before attempt `k+1` is skipped exactly when attempt `k` ended with
`-ETIMEDOUT` — a timeout, not a hard transport error (every non-final
attempt ends with some strictly negative classified error). -/
theorem dpcd_wait_skip_on_timeout (tr : Collab) (request offset size : Nat)
    (buf : List Nat) (n0 : Nat) :
    AUX_RETRY_INTERVAL = 500 ∧ AUX_RETRY_INTERVAL + 100 = 600 ∧
    ((drm_dp_dpcd_access tr request offset size buf n0).attempts.getD 0
      default).waited = false ∧
    (∀ k, k + 1 < (drm_dp_dpcd_access tr request offset size buf n0).attempts.length →
      ((((drm_dp_dpcd_access tr request offset size buf n0).attempts.getD (k+1)
          default).waited = true ↔
        ((drm_dp_dpcd_access tr request offset size buf n0).attempts.getD k
          default).classified ≠ -eTimedOut) ∧
       ((drm_dp_dpcd_access tr request offset size buf n0).attempts.getD k
          default).classified < 0)) := by
  refine ⟨rfl, rfl, ?_, ?_⟩
  · have hh := dpcdLoop_attempts_head tr ⟨offset, request, 0, size⟩ 32 n0 0 0 buf
      (by norm_num)
    unfold drm_dp_dpcd_access
    rw [hh.2.1]
    decide
  · intro k hk
    unfold drm_dp_dpcd_access at hk ⊢
    have hc := dpcdLoop_attempts_consec 32 n0 0 0 buf k hk
    refine ⟨?_, hc.2⟩
    rw [hc.1]
    have hne : ((dpcdLoop tr ⟨offset, request, 0, size⟩ 32 n0 0 0 buf).attempts.getD k
        default).classified ≠ 0 := by
      have := hc.2; omega
    simp only [decide_eq_true_eq]
    exact ⟨fun h => h.2, fun h => ⟨hne, h⟩⟩

/-- Counterexample to claim C4 as stated: with a collaborator failing every
transfer with the hard transport error `-EIO` (`eIo = 5`, distinct from the
timeout errno `eTimedOut = 110`), the wait before attempt 1 is *not*
skipped (`waited = true`), although attempt 0 failed with a hard transport
error; the code only skips the wait after `-ETIMEDOUT`. -/
theorem dpcd_wait_skip_claim_refuted :
    ((drm_dp_dpcd_access c4tr DP_AUX_NATIVE_READ 0 1 [0] 0).attempts.getD 0
      default).classified = -eIo ∧
    eIo = 5 ∧ eTimedOut = 110 ∧
    ((drm_dp_dpcd_access c4tr DP_AUX_NATIVE_READ 0 1 [0] 0).attempts.getD 1
      default).waited = true := by
  refine ⟨by decide, rfl, rfl, by decide⟩

/-- Witness for C4: the corrected wait rule applied at attempt 0 of the
`c4tr` run shows the wait before attempt 1 runs. -/
theorem dpcd_wait_skip_on_timeout_app :
    ((drm_dp_dpcd_access c4tr DP_AUX_NATIVE_READ 0 1 [0] 0).attempts.getD 1
      default).waited = true := by
  have h := (dpcd_wait_skip_on_timeout c4tr DP_AUX_NATIVE_READ 0 1 [0] 0).2.2.2 0
    (by decide)
  exact h.1.mpr (by decide)

/-- The native retry loop keeps going after an error: if attempt `k` was
performed and classified as an error and the fuel window is not yet
exhausted, attempt `k+1` is performed as well. -/
theorem dpcdLoop_attempts_continue {tr : Collab} {msg : AuxMsg} :
    ∀ fuel n (ret err : Int) (buf : List Nat) k,
    k < (dpcdLoop tr msg fuel n ret err buf).attempts.length →
    ((dpcdLoop tr msg fuel n ret err buf).attempts.getD k default).classified < 0 →
    k + 1 < fuel →
    k + 1 < (dpcdLoop tr msg fuel n ret err buf).attempts.length := by
  intro fuel
  induction fuel with
  | zero =>
    intro n ret err buf k h _ _
    simp [dpcdLoop] at h
  | succ fuel ih =>
    intro n ret err buf k h hneg hf
    by_cases h0 : nativeSuccess msg.size (tr n msg)
    · exfalso
      have hatt : (dpcdLoop tr msg (fuel+1) n ret err buf).attempts =
          [⟨decide (ret ≠ 0 ∧ ret ≠ -eTimedOut), (tr n msg).ret, (tr n msg).reply,
            classifyNative msg.size (tr n msg)⟩] := by
        simp only [dpcdLoop]
        rw [if_pos h0]
      rw [hatt] at h hneg
      have hk0 : k = 0 := by simp at h; omega
      subst hk0
      rw [List.getD_cons_zero] at hneg
      have := classifyNative_of_success h0
      simp only [this] at hneg
      omega
    · have hatt : (dpcdLoop tr msg (fuel+1) n ret err buf).attempts =
          (⟨decide (ret ≠ 0 ∧ ret ≠ -eTimedOut), (tr n msg).ret, (tr n msg).reply,
            classifyNative msg.size (tr n msg)⟩ : DpcdAttempt) ::
          (dpcdLoop tr msg fuel (n+1) (classifyNative msg.size (tr n msg))
            (if err = 0 then classifyNative msg.size (tr n msg) else err)
            ((tr n msg).data ++ buf.drop (tr n msg).data.length)).attempts := by
        simp only [dpcdLoop]
        rw [if_neg h0]
      rw [hatt] at h hneg ⊢
      cases k with
      | zero =>
        have hf2 : 0 < fuel := by omega
        have hh := dpcdLoop_attempts_head tr msg fuel (n+1)
          (classifyNative msg.size (tr n msg))
          (if err = 0 then classifyNative msg.size (tr n msg) else err)
          ((tr n msg).data ++ buf.drop (tr n msg).data.length) hf2
        have := List.length_pos.mpr hh.1
        simp only [List.length_cons]
        omega
      | succ j =>
        have h2 : j < (dpcdLoop tr msg fuel (n+1) (classifyNative msg.size (tr n msg))
            (if err = 0 then classifyNative msg.size (tr n msg) else err)
            ((tr n msg).data ++ buf.drop (tr n msg).data.length)).attempts.length := by
          simp only [List.length_cons] at h
          omega
        have h3 := ih (n+1) (classifyNative msg.size (tr n msg))
          (if err = 0 then classifyNative msg.size (tr n msg) else err)
          ((tr n msg).data ++ buf.drop (tr n msg).data.length) j h2
          (by simpa only [List.getD_cons_succ] using hneg) (by omega)
        simp only [List.length_cons]
        omega

/-- Claim C6: whenever the transfer collaborator reports success
(`0 ≤ ret`), the retry loop of `dpcdAccess` classifies the outcome by the
native-reply subfield — ACK with the full requested byte count succeeds, ACK
with a partial count yields the protocol error `-EPROTO` (distinct from any
transport failure it could have received), any other native reply yields
`-EIO` — and an attempt classified as an error is retried while the
32-attempt budget lasts. -/
theorem dpcd_reply_classification (size : Nat) (o : Outcome) (h : 0 ≤ o.ret) :
    ((o.reply &&& DP_AUX_NATIVE_REPLY_MASK = DP_AUX_NATIVE_REPLY_ACK →
        o.ret = (size : Int) →
        classifyNative size o = (size : Int) ∧ nativeSuccess size o)) ∧
    ((o.reply &&& DP_AUX_NATIVE_REPLY_MASK = DP_AUX_NATIVE_REPLY_ACK →
        o.ret ≠ (size : Int) → classifyNative size o = -eProto)) ∧
    ((o.reply &&& DP_AUX_NATIVE_REPLY_MASK ≠ DP_AUX_NATIVE_REPLY_ACK →
        classifyNative size o = -eIo)) ∧
    (-eProto : Int) ≠ -eIo ∧ (-eProto : Int) ≠ -eBusy ∧
    (-eProto : Int) ≠ -eTimedOut ∧
    (∀ (tr : Collab) (request offset : Nat) (buf : List Nat) (n0 k : Nat),
      k < (drm_dp_dpcd_access tr request offset size buf n0).attempts.length →
      ((drm_dp_dpcd_access tr request offset size buf n0).attempts.getD k
        default).classified < 0 →
      k + 1 < 32 →
      k + 1 < (drm_dp_dpcd_access tr request offset size buf n0).attempts.length) := by
  refine ⟨?_, ?_, ?_, by decide, by decide, by decide, ?_⟩
  · intro hr hsz
    have hs : nativeSuccess size o := ⟨h, hr, hsz⟩
    exact ⟨classifyNative_of_success hs, hs⟩
  · intro hr hsz
    unfold classifyNative
    rw [if_pos h, if_pos hr, if_neg hsz]
  · intro hr
    unfold classifyNative
    rw [if_pos h, if_neg hr]
  · intro tr request offset buf n0 k hk hneg hbudget
    unfold drm_dp_dpcd_access at hk hneg ⊢
    exact dpcdLoop_attempts_continue 32 n0 0 0 buf k hk hneg hbudget

/-- Witness for C6: a full two-byte ACK reply is classified as success, and
a NACKed attempt (classified `-EIO`) is retried. -/
theorem dpcd_reply_classification_app :
    classifyNative 2 ⟨2, 0, []⟩ = ((2 : Nat) : Int) ∧ nativeSuccess 2 ⟨2, 0, []⟩ :=
  (dpcd_reply_classification 2 ⟨2, 0, []⟩ (by decide)).1 (by decide) (by decide)

/-- The C macro `DIV_ROUND_UP` computes the ceiling of the division: its
result is the least number of `d`-sized steps covering `a`. -/
theorem div_round_up_spec (a d : Nat) (hd : 0 < d) (ha : 0 < a) :
    a ≤ DIV_ROUND_UP a d * d ∧ (DIV_ROUND_UP a d - 1) * d < a := by
  unfold DIV_ROUND_UP
  have hm := Nat.div_add_mod (a + d - 1) d
  have hr : (a + d - 1) % d < d := Nat.mod_lt _ hd
  obtain ⟨X, hX⟩ : ∃ X, d * ((a + d - 1) / d) = X := ⟨_, rfl⟩
  rw [hX] at hm
  constructor
  · rw [Nat.mul_comm, hX]
    omega
  · have hsub : ((a + d - 1) / d - 1) * d = (a + d - 1) / d * d - 1 * d :=
      Nat.sub_mul _ _ _
    rw [hsub, Nat.one_mul, Nat.mul_comm, hX]
    omega

/-- The estimated i2c transfer duration is positive for a positive bus
speed. -/
theorem i2c_msg_duration_pos (msg : AuxMsg) (speed : Nat) (h : 0 < speed) :
    0 < drm_dp_i2c_msg_duration msg speed := by
  unfold drm_dp_i2c_msg_duration DIV_ROUND_UP
  simp only [I2C_START_LEN, I2C_ADDR_LEN, I2C_DATA_LEN, I2C_STOP_LEN]
  apply Nat.div_pos ?_ h
  omega

/-- Each iteration of the `do_msg` retry loop hands at most one message to
the collaborator, so the trace grows by at most the fuel. -/
theorem i2cDoMsgLoop_msgs_length (tr : Collab) (mr : Nat) :
    ∀ fuel retry dc (msg : AuxMsg) n (acc : List AuxMsg),
    (i2cDoMsgLoop tr mr fuel retry dc msg n acc).msgs.length ≤ acc.length + fuel := by
  intro fuel
  induction fuel with
  | zero => intro retry dc msg n acc; simp [i2cDoMsgLoop]
  | succ fuel ih =>
    intro retry dc msg n acc
    simp only [i2cDoMsgLoop]
    split_ifs
    all_goals first
      | (refine le_trans (ih _ _ _ _ _) ?_
         simp only [List.length_append, List.length_cons, List.length_nil]
         omega)
      | (simp only [List.length_append, List.length_cons, List.length_nil]
         omega)

/-- Switching a message to WRITE_STATUS_UPDATE never changes its size. -/
theorem wsu_size (msg : AuxMsg) :
    (drm_dp_i2c_msg_write_status_update msg).size = msg.size := by
  unfold drm_dp_i2c_msg_write_status_update
  split_ifs <;> rfl

/-- Against a collaborator that replies I2C DEFER on its first seven calls
and a full ACK afterwards, the `do_msg` retry loop — entered with matching
retry, defer and call counters `k ≤ 7` and fuel `maxRetries + 7 - k` —
returns the full message size, for any retry budget of at least the
spec-mandated seven. -/
theorem c2defer_run (mr : Nat) (hmr : 7 ≤ mr) :
    ∀ d k, k + d = 7 → ∀ (msg : AuxMsg) (acc : List AuxMsg),
    (i2cDoMsgLoop c2deferTr mr (mr + 7 - k) k k msg k acc).ret = (msg.size : Int) := by
  intro d
  induction d with
  | zero =>
    intro k hk msg acc
    have hk7 : k = 7 := by omega
    subst hk7
    have hfuel : mr + 7 - 7 = (mr - 1) + 1 := by omega
    rw [hfuel]
    simp only [i2cDoMsgLoop]
    rw [if_pos (by omega : 7 < mr + 7)]
    have hc : c2deferTr 7 msg = ⟨(msg.size : Int), 0, []⟩ := by
      unfold c2deferTr
      rw [if_neg (by omega)]
    rw [hc]
    rw [if_neg (by exact not_lt.mpr (Int.natCast_nonneg _))]
    simp [DP_AUX_NATIVE_REPLY_ACK, DP_AUX_I2C_REPLY_ACK]
  | succ d ih =>
    intro k hk msg acc
    have hklt : k < 7 := by omega
    have hfuel : mr + 7 - k = (mr + 7 - (k+1)) + 1 := by omega
    rw [hfuel]
    simp only [i2cDoMsgLoop]
    rw [if_pos (by omega : k < mr + k)]
    have hc : c2deferTr k msg = ⟨0, DP_AUX_I2C_REPLY_DEFER, []⟩ := by
      unfold c2deferTr
      rw [if_pos hklt]
    rw [hc]
    rw [if_neg (by decide), if_pos (by decide), if_neg (by decide),
      if_neg (by decide), if_pos (by decide), if_pos hklt]
    rw [← wsu_size msg]
    exact ih (k+1) (by omega) (drm_dp_i2c_msg_write_status_update msg) (acc ++ [msg])

/-- Claim C2: the retry budget of `drm_dp_i2c_do_msg` is the maximum of 7
and the ceiling of the estimated i2c transfer duration over the per-attempt
AUX duration plus retry interval (first two conjuncts: `retry_count` is that
ceiling, `maxRetries` is the max); the separate I2C-DEFER counter extends
the number of attempts by at most 7 (trace-length bound); and against a
collaborator replying I2C DEFER exactly 7 times then ACK, a read or write of
any size up to the configured maximum payload succeeds. -/
theorem i2c_do_msg_retry_budget (msg : AuxMsg) (speed : Nat) (tr : Collab)
    (n : Nat) (s addr req : Nat) (hspeed : 0 < speed)
    (_hs : s ≤ DP_AUX_MAX_PAYLOAD_BYTES) :
    (drm_dp_i2c_msg_duration msg speed ≤
      drm_dp_i2c_retry_count msg speed *
        (drm_dp_aux_req_duration msg + drm_dp_aux_reply_duration msg +
          AUX_RETRY_INTERVAL) ∧
     (drm_dp_i2c_retry_count msg speed - 1) *
        (drm_dp_aux_req_duration msg + drm_dp_aux_reply_duration msg +
          AUX_RETRY_INTERVAL) < drm_dp_i2c_msg_duration msg speed) ∧
    i2cMaxRetries msg speed = max 7 (drm_dp_i2c_retry_count msg speed) ∧
    (drm_dp_i2c_do_msg tr msg n speed).msgs.length ≤
      i2cMaxRetries msg speed + 7 ∧
    (drm_dp_i2c_do_msg c2deferTr ⟨addr, req, 0, s⟩ 0 speed).ret = (s : Int) := by
  refine ⟨?_, rfl, ?_, ?_⟩
  · unfold drm_dp_i2c_retry_count
    exact div_round_up_spec _ _
      (by simp only [AUX_RETRY_INTERVAL]; omega)
      (i2c_msg_duration_pos msg speed hspeed)
  · have h := i2cDoMsgLoop_msgs_length tr (i2cMaxRetries msg speed)
      (i2cMaxRetries msg speed + 7) 0 0 msg n []
    unfold drm_dp_i2c_do_msg
    simpa using h
  · have h7 : 7 ≤ i2cMaxRetries ⟨addr, req, 0, s⟩ speed := le_max_left _ _
    have h := c2defer_run (i2cMaxRetries ⟨addr, req, 0, s⟩ speed) h7 7 0 rfl
      ⟨addr, req, 0, s⟩ []
    unfold drm_dp_i2c_do_msg
    simpa using h

/-- Witness for C2: a 16-byte I2C read against the DEFER-7-then-ACK
collaborator at the default 10 kHz bus speed succeeds with all 16 bytes. -/
theorem i2c_do_msg_retry_budget_app :
    (drm_dp_i2c_do_msg c2deferTr ⟨0x50, DP_AUX_I2C_READ ||| DP_AUX_I2C_MOT, 0, 16⟩
      0 10).ret = ((16 : Nat) : Int) :=
  (i2c_do_msg_retry_budget ⟨0, 0, 0, 0⟩ 10 c2deferTr 0 16 0x50
    (DP_AUX_I2C_READ ||| DP_AUX_I2C_MOT) (by decide) (by decide)).2.2.2

/-- Claim C7: per-attempt error handling of `drm_dp_i2c_do_msg` — a
transport error equal to `-EBUSY` is silently retried, consuming nothing but
the loop counter (same message, same defer budget); any other transport
error (timeouts included) aborts immediately, returning that error; and a
native NACK reply aborts immediately with the remote-I/O error
`-EREMOTEIO`. -/
theorem i2c_transport_error_handling (tr : Collab) (mr fuel retry dc : Nat)
    (msg : AuxMsg) (n : Nat) (acc : List AuxMsg) (h : retry < mr + dc) :
    ((tr n msg).ret < 0 → (tr n msg).ret = -eBusy →
      i2cDoMsgLoop tr mr (fuel+1) retry dc msg n acc =
        i2cDoMsgLoop tr mr fuel (retry+1) dc msg (n+1) (acc ++ [msg])) ∧
    ((tr n msg).ret < 0 → (tr n msg).ret ≠ -eBusy →
      i2cDoMsgLoop tr mr (fuel+1) retry dc msg n acc =
        ⟨(tr n msg).ret, msg, n+1, acc ++ [msg]⟩) ∧
    (0 ≤ (tr n msg).ret →
      (tr n msg).reply &&& DP_AUX_NATIVE_REPLY_MASK = DP_AUX_NATIVE_REPLY_NACK →
      i2cDoMsgLoop tr mr (fuel+1) retry dc msg n acc =
        ⟨-eRemoteIo, msg, n+1, acc ++ [msg]⟩) := by
  refine ⟨?_, ?_, ?_⟩
  · intro h1 h2
    simp only [i2cDoMsgLoop]
    rw [if_pos h, if_pos h1, if_pos h2]
  · intro h1 h2
    simp only [i2cDoMsgLoop]
    rw [if_pos h, if_pos h1, if_neg h2]
  · intro h1 h2
    simp only [i2cDoMsgLoop]
    rw [if_pos h, if_neg (by omega), if_neg (by rw [h2]; decide), if_pos h2]

/-- Witness for C7: a timed-out transfer (`-ETIMEDOUT`, not `-EBUSY`) aborts
the message immediately, returning the timeout to the caller. -/
theorem i2c_transport_error_handling_app :
    i2cDoMsgLoop c7tr 7 14 0 0 ⟨0, DP_AUX_I2C_READ, 0, 1⟩ 0 [] =
      ⟨-eTimedOut, ⟨0, DP_AUX_I2C_READ, 0, 1⟩, 1, [⟨0, DP_AUX_I2C_READ, 0, 1⟩]⟩ :=
  (i2c_transport_error_handling c7tr 7 13 0 0 ⟨0, DP_AUX_I2C_READ, 0, 1⟩ 0 []
    (by decide)).2.1 (by decide) (by decide)
